import Mathlib

/-!
Verification of the computational core of `src/basic.py`, a Streamlit app
that simulates the saponification of ethyl acetate by NaOH.  The core is:
the Arrhenius rate constant (line 90), the embedded experimental datasets
(lines 96-117), the per-dataset rate-constant selection (lines 134-138) and
the integration of the second-order decay ODE (lines 130-140).  Machine
floats are modelled as exact reals; the external integrator `odeint` is
modelled as exact integration of the source's `ode_model`, which is
justified by `closedForm_hasDerivAt` below.
-/

namespace ReactionKinetics

/-- Gas constant `R = 8.314` (src/basic.py line 34). -/
def R : ℝ := 8.314

/-- Line 90: `k_sim = A_input * np.exp(-Ea_input / (R * T_sim))`, the
Arrhenius rate constant computed from the user's settings.  The same
expression is reused with a parsed temperature at line 136. -/
noncomputable def k_sim (A_input Ea_input T_sim : ℝ) : ℝ :=
  A_input * Real.exp (-Ea_input / (R * T_sim))

/-- The error taxonomy of the specification (§7), extended with the one
exception line 90 can actually raise: `A_input`, `Ea_input` and `T_sim` are
Python floats (from `st.number_input`), so a zero divisor in
`-Ea_input / (R * T_sim)` raises an uncaught `ZeroDivisionError`. -/
inductive SimError
  | invalidParameter
  | invalidInput
  | zeroDivision

/-- The specification's `computeRateConstant` contract as the code realises
it: line 90 evaluates the Arrhenius expression directly, with no validation
of the temperature and no surrounding try/except.  The operands are Python
floats, so when the divisor `R * T_sim` is zero (i.e. `T_sim = 0`) the
division raises an uncaught `ZeroDivisionError` before `np.exp` is reached;
for every other temperature no exception is possible and the result is
`Except.ok` of `k_sim`. -/
noncomputable def computeRateConstant (A Ea T : ℝ) : Except SimError ℝ :=
  if R * T = 0 then Except.error SimError.zeroDivision
  else Except.ok (k_sim A Ea T)

/-- Line 130: `def ode_model(C, t, k): return -k * C**2`. -/
def ode_model (C t k : ℝ) : ℝ := -k * C ^ 2

/-- Exact solution of the initial value problem `dC/dt = ode_model C t k`,
`C 0 = C0`.  The external integrator call
`odeint(ode_model, C0, time_sim_sec, args=(k_temp,))` (line 140) is
modelled as exact integration of `ode_model`; `closedForm_hasDerivAt`
proves that this function does solve the source's ODE. -/
noncomputable def closedForm (C0 k t : ℝ) : ℝ := C0 / (1 + k * C0 * t)

/-- Line 140: the concentration column returned by the integrator, sampled
at exactly the requested time points (odeint evaluates at the caller's
grid, whose first point 0 returns the initial value itself). -/
noncomputable def conc_sim (C0 k : ℝ) (ts : List ℝ) : List ℝ := ts.map (closedForm C0 k)

/-- The specification's `simulate` contract as the code realises it: the
integrator call at line 140 is preceded by no validation of `C0` or of the
time grid and wrapped in no try/except, so the result is always
`Except.ok` of the integrated trajectory. -/
noncomputable def simulate (C0 k : ℝ) (ts : List ℝ) : Except SimError (List ℝ) :=
  Except.ok (conc_sim C0 k ts)

/-- Numeric value of a run of decimal digits, most significant first. -/
def digitsVal (cs : List Char) : Nat :=
  cs.foldl (fun n c => 10 * n + (c.toNat - 48)) 0

/-- Models Python `int(s)` applied to a string (line 135): optional
surrounding ASCII whitespace, an optional sign, then a nonempty run of
decimal digits; anything else raises `ValueError`, modelled as `none`.
(CPython additionally accepts underscores between digits; no label in this
program contains an underscore, so that case is not modelled.) -/
def pyInt (s : String) : Option Int :=
  let cs := (((s.data.dropWhile Char.isWhitespace).reverse).dropWhile
    Char.isWhitespace).reverse
  match cs with
  | '-' :: rest =>
      if rest ≠ [] ∧ rest.all Char.isDigit then some (-(digitsVal rest : Int))
      else none
  | '+' :: rest =>
      if rest ≠ [] ∧ rest.all Char.isDigit then some (digitsVal rest : Int)
      else none
  | rest =>
      if rest ≠ [] ∧ rest.all Char.isDigit then some (digitsVal rest : Int)
      else none

/-- Line 135: `label.replace("K", "")` — with a one-character pattern and an
empty replacement this deletes every `'K'` from the label. -/
def stripK (label : String) : String :=
  String.mk (label.data.filter (fun c => c ≠ 'K'))

/-- Lines 134-138: per-dataset rate-constant selection.  A successful
`int(label.replace("K", ""))` computes the Arrhenius constant at the parsed
temperature (line 136 is the same expression as line 90, hence `k_sim`);
the bare `except:` swallows the `ValueError` and falls back to the global
rate constant. -/
noncomputable def k_temp (A_input Ea_input ksim : ℝ) (label : String) : ℝ :=
  match pyInt (stripK label) with
  | some n => k_sim A_input Ea_input (n : ℝ)
  | none => ksim

/-- Lines 96-117: the embedded experimental datasets, transcribed literally
(times in seconds, concentrations in mol/L, as exact rationals). -/
def data_sets : List (String × List (String × (List ℚ × List ℚ))) :=
  [("Temperature",
    [("293K", ([0, 480, 960, 1440, 1920, 2400, 2880],
               [0.0500, 0.0333, 0.0233, 0.0178, 0.0156, 0.0144, 0.0125])),
     ("303K", ([0, 480, 960, 1440, 1920, 2400, 2880],
               [0.0500, 0.0256, 0.0189, 0.0144, 0.0122, 0.0100, 0.0078])),
     ("313K", ([0, 480, 960, 1440, 1920, 2400, 2880],
               [0.0500, 0.0200, 0.0133, 0.0100, 0.0083, 0.0067, 0.0061]))]),
   ("Volume",
    [("1.2L", ([0, 480, 960, 1440, 1920, 2400, 2880],
               [0.0500, 0.0222, 0.0156, 0.0128, 0.0100, 0.0089, 0.0083])),
     ("1.4L", ([0, 480, 960, 1440, 1920, 2400, 2880],
               [0.0500, 0.0289, 0.0222, 0.0178, 0.0156, 0.0144, 0.0133])),
     ("1.8L", ([0, 480, 960, 1440, 1920, 2400, 2880],
               [0.0500, 0.067, 0.0289, 0.0256, 0.0222, 0.0200, 0.0167]))]),
   ("Agitation Rate",
    [("70rpm", ([0, 480, 960, 1440, 1920, 2400, 2880],
               [0.0500, 0.0189, 0.0133, 0.0100, 0.0078, 0.0067, 0.0056])),
     ("110rpm", ([0, 480, 960, 1440, 1920, 2400, 2880],
               [0.0500, 0.0256, 0.0189, 0.0156, 0.0128, 0.0111, 0.0100])),
     ("150rpm", ([0, 480, 960, 1440, 1920, 2400, 2880],
               [0.0500, 0.0333, 0.0267, 0.0222, 0.0200, 0.0178, 0.0156]))]),
   ("Initial Concentration",
    [("0.025M", ([0, 480, 960, 1440, 1920, 2400, 2880],
               [0.0500, 0.0360, 0.0260, 0.0200, 0.0160, 0.0120, 0.0111])),
     ("0.050M", ([0, 480, 960, 1440, 1920, 2400, 2880],
               [0.0500, 0.0389, 0.0300, 0.0244, 0.0211, 0.0189, 0.0167])),
     ("0.075M", ([0, 480, 960, 1440, 1920, 2400, 2880],
               [0.0500, 0.0392, 0.0313, 0.0256, 0.0222, 0.0200, 0.0178]))])]

/-- One iteration of the plotting loop (lines 123-144), restricted to its
simulation part: line 131 takes `C0 = conc_exp[0]`, line 132 reuses the
experimental time grid as the simulation grid, lines 134-138 select
`k_temp`, and line 140 integrates.  Returns the pair (simulation time
grid, simulated concentrations). -/
noncomputable def simulatedSeries (A_input Ea_input ksim : ℝ) (label : String)
    (time_exp conc_exp : List ℚ) : List ℝ × List ℝ :=
  (time_exp.map (fun q : ℚ => (q : ℝ)),
   conc_sim ((conc_exp.headI : ℚ) : ℝ) (k_temp A_input Ea_input ksim label)
     (time_exp.map (fun q : ℚ => (q : ℝ))))

/-! ## Helper lemmas -/

/-- The closed form solves the source ODE: wherever the denominator does not
vanish, the derivative of `closedForm C0 k` equals `ode_model` evaluated at
the current concentration.  This justifies modelling the `odeint` call as
exact integration of line 130's `ode_model`. -/
lemma closedForm_hasDerivAt (C0 k t : ℝ) (hden : 1 + k * C0 * t ≠ 0) :
    HasDerivAt (closedForm C0 k) (ode_model (closedForm C0 k t) t k) t := by
  have h1 : HasDerivAt (fun s : ℝ => 1 + k * C0 * s) (k * C0) t := by
    simpa using ((hasDerivAt_id t).const_mul (k * C0)).const_add 1
  have h2 := (h1.inv hden).const_mul C0
  have h3 : (fun y : ℝ => C0 * (1 + k * C0 * y)⁻¹) = closedForm C0 k := by
    funext y
    simp [closedForm, div_eq_mul_inv]
  rw [h3] at h2
  convert h2 using 1
  simp only [ode_model, closedForm]
  field_simp
  ring

/-- In a nondecreasing list whose head is `a`, every element dominates `a`. -/
lemma head?_le_of_chain' {l : List ℝ} {a : ℝ} (hc : l.Chain' (· ≤ ·))
    (hh : l.head? = some a) : ∀ t ∈ l, a ≤ t := by
  rw [List.chain'_iff_pairwise] at hc
  cases l with
  | nil => simp at hh
  | cons x l' =>
    have hx : x = a := by simpa using hh
    subst hx
    intro t ht
    rcases List.mem_cons.mp ht with h | h
    · exact h ▸ le_refl x
    · exact (List.pairwise_cons.mp hc).1 t h

/-- Mapping the trajectory over a nondecreasing list of nonnegative times
yields a nonincreasing list of concentrations. -/
lemma chain'_map_closedForm {C0 k : ℝ} (hC0 : 0 < C0) (hk : 0 ≤ k) :
    ∀ l : List ℝ, (∀ t ∈ l, 0 ≤ t) → l.Chain' (· ≤ ·) →
      (l.map (closedForm C0 k)).Chain' (fun a b => b ≤ a)
  | [], _, _ => by simp
  | [a], _, _ => by simp
  | a :: b :: l, hmem, hchain => by
    rw [List.chain'_cons] at hchain
    have ha : 0 ≤ a := hmem a (by simp)
    have hkC0 : 0 ≤ k * C0 := mul_nonneg hk hC0.le
    have hrec := chain'_map_closedForm hC0 hk (b :: l)
      (fun t ht => hmem t (List.mem_cons_of_mem a ht)) hchain.2
    simp only [List.map_cons] at hrec ⊢
    rw [List.chain'_cons]
    refine ⟨?_, hrec⟩
    have hle : 1 + k * C0 * a ≤ 1 + k * C0 * b := by
      nlinarith [mul_le_mul_of_nonneg_left hchain.1 hkC0]
    have hpos : (0:ℝ) < 1 + k * C0 * a := by nlinarith [mul_nonneg hkC0 ha]
    simpa [closedForm] using div_le_div_of_nonneg_left hC0.le hpos hle

/-- A trajectory sampled at a grid whose first point is `t = 0` starts at
the initial concentration. -/
lemma conc_sim_head {C0 k : ℝ} {ts : List ℝ} (h : ts.head? = some 0) :
    (conc_sim C0 k ts).head? = some C0 := by
  cases ts with
  | nil => simp at h
  | cons t ts' =>
    have ht : t = 0 := by simpa using h
    subst ht
    simp [conc_sim, closedForm]

/-- The loop body preserves the experimental grid and initial concentration
whenever the grid starts at 0 and matches the concentration list in
length. -/
lemma simulatedSeries_spec (A Ea ksim : ℝ) (label : String) (ts cs : List ℚ)
    (hts : ts.head? = some 0) (hlen : ts.length = cs.length) :
    (simulatedSeries A Ea ksim label ts cs).1 = ts.map (fun q : ℚ => (q : ℝ)) ∧
    (simulatedSeries A Ea ksim label ts cs).2.length = cs.length ∧
    (simulatedSeries A Ea ksim label ts cs).2.head? =
      some ((cs.headI : ℚ) : ℝ) := by
  refine ⟨rfl, ?_, ?_⟩
  · simp only [simulatedSeries, conc_sim, List.length_map]
    exact hlen
  · apply conc_sim_head
    cases ts with
    | nil => simp at hts
    | cons t ts' =>
      have ht : t = 0 := by simpa using hts
      simp [ht]

/-! ## Claim theorems -/

/-- C1: for every `C0 > 0`, `k ≥ 0` and nondecreasing time grid starting at
0, the `i`-th element of `simulate C0 k ts` equals the closed-form value
`C0 / (1 + k*C0*ts[i])` within relative tolerance `1e-3`; moreover the
sampled trajectory really solves the source's `ode_model` at every sampled
time (in the exact-integration model the agreement is exact, hence within
any nonnegative tolerance). -/
theorem simulate_matches_closed_form (C0 k : ℝ) (ts : List ℝ) (hC0 : 0 < C0)
    (hk : 0 ≤ k) (hchain : ts.Chain' (· ≤ ·)) (hhead : ts.head? = some 0) :
    simulate C0 k ts = Except.ok (conc_sim C0 k ts) ∧
    ∀ i, i < ts.length →
      HasDerivAt (closedForm C0 k)
        (ode_model (closedForm C0 k (ts.getD i 0)) (ts.getD i 0) k)
        (ts.getD i 0) ∧
      |(conc_sim C0 k ts).getD i 0 - C0 / (1 + k * C0 * ts.getD i 0)| ≤
        1e-3 * |C0 / (1 + k * C0 * ts.getD i 0)| := by
  refine ⟨rfl, fun i hi => ?_⟩
  have hts : ts.getD i 0 ∈ ts := by
    rw [List.getD_eq_getElem ts 0 hi]
    exact List.getElem_mem hi
  have ht0 : (0:ℝ) ≤ ts.getD i 0 := head?_le_of_chain' hchain hhead _ hts
  have hden : (0:ℝ) < 1 + k * C0 * ts.getD i 0 := by
    nlinarith [mul_nonneg (mul_nonneg hk hC0.le) ht0]
  refine ⟨closedForm_hasDerivAt C0 k _ (ne_of_gt hden), ?_⟩
  have hlen : i < (conc_sim C0 k ts).length := by simpa [conc_sim] using hi
  have hval : (conc_sim C0 k ts).getD i 0 = closedForm C0 k (ts.getD i 0) := by
    rw [List.getD_eq_getElem _ 0 hlen, List.getD_eq_getElem ts 0 hi]
    simp [conc_sim]
  rw [hval]
  simp only [closedForm]
  rw [sub_self, abs_zero]
  positivity

/-- Witness for C1 at `C0 = 1`, `k = 1`, grid `[0, 2]`. -/
theorem simulate_matches_closed_form_witness :
    (0:ℝ) < 1 ∧ (0:ℝ) ≤ 1 ∧
    (simulate 1 1 [0, 2] = Except.ok (conc_sim 1 1 [0, 2]) ∧
     ∀ i, i < ([0, 2] : List ℝ).length →
       HasDerivAt (closedForm 1 1)
         (ode_model (closedForm 1 1 (([0, 2] : List ℝ).getD i 0))
           (([0, 2] : List ℝ).getD i 0) 1) (([0, 2] : List ℝ).getD i 0) ∧
       |(conc_sim 1 1 [0, 2]).getD i 0 -
           1 / (1 + 1 * 1 * ([0, 2] : List ℝ).getD i 0)| ≤
         1e-3 * |1 / (1 + 1 * 1 * ([0, 2] : List ℝ).getD i 0)|) :=
  ⟨by norm_num, by norm_num,
    simulate_matches_closed_form 1 1 [0, 2] (by norm_num) (by norm_num)
      (List.chain'_cons.mpr ⟨by norm_num, List.chain'_singleton 2⟩) rfl⟩

/-- C2: the rate constant fed to the simulator for a dataset label.  A label
that fails Python's integer parse (after deleting `K`s) silently falls back
to the global `k_sim A Ea T`; one that parses yields the Arrhenius constant
at the parsed temperature.  The twelve embedded labels are enumerated: the
three Temperature labels use their own temperature, the other nine use the
global rate constant; `computeRateConstant` at 303 agrees with the value
selected for label "303K". -/
theorem k_temp_selection_policy (A Ea T : ℝ) :
    (∀ label, pyInt (stripK label) = none →
        k_temp A Ea (k_sim A Ea T) label = k_sim A Ea T) ∧
    (∀ label n, pyInt (stripK label) = some n →
        k_temp A Ea (k_sim A Ea T) label = k_sim A Ea (n : ℝ)) ∧
    (k_temp A Ea (k_sim A Ea T) "293K" = k_sim A Ea 293 ∧
     k_temp A Ea (k_sim A Ea T) "303K" = k_sim A Ea 303 ∧
     k_temp A Ea (k_sim A Ea T) "313K" = k_sim A Ea 313 ∧
     k_temp A Ea (k_sim A Ea T) "1.2L" = k_sim A Ea T ∧
     k_temp A Ea (k_sim A Ea T) "1.4L" = k_sim A Ea T ∧
     k_temp A Ea (k_sim A Ea T) "1.8L" = k_sim A Ea T ∧
     k_temp A Ea (k_sim A Ea T) "70rpm" = k_sim A Ea T ∧
     k_temp A Ea (k_sim A Ea T) "110rpm" = k_sim A Ea T ∧
     k_temp A Ea (k_sim A Ea T) "150rpm" = k_sim A Ea T ∧
     k_temp A Ea (k_sim A Ea T) "0.025M" = k_sim A Ea T ∧
     k_temp A Ea (k_sim A Ea T) "0.050M" = k_sim A Ea T ∧
     k_temp A Ea (k_sim A Ea T) "0.075M" = k_sim A Ea T ∧
     computeRateConstant A Ea 303 =
       Except.ok (k_temp A Ea (k_sim A Ea T) "303K")) := by
  refine ⟨?_, ?_, ?_⟩
  · intro label hnone
    simp only [k_temp, hnone]
  · intro label n hsome
    simp only [k_temp, hsome]
  · refine ⟨?_, ?_, ?_, rfl, rfl, rfl, rfl, rfl, rfl, rfl, rfl, rfl, ?_⟩
    · simp only [k_temp, show pyInt (stripK "293K") = some 293 from by decide]
      norm_num
    · simp only [k_temp, show pyInt (stripK "303K") = some 303 from by decide]
      norm_num
    · simp only [k_temp, show pyInt (stripK "313K") = some 313 from by decide]
      norm_num
    · have h : R * (303 : ℝ) ≠ 0 := by norm_num [R]
      simp only [computeRateConstant, if_neg h, k_temp,
        show pyInt (stripK "303K") = some 303 from by decide]
      norm_num [Except.ok.injEq]

/-- Witness for C2: the non-temperature label "70rpm" fails the parse and
falls back to the global rate constant. -/
theorem k_temp_selection_policy_witness :
    pyInt (stripK "70rpm") = none ∧
    k_temp 0.5 43094 (k_sim 0.5 43094 298) "70rpm" = k_sim 0.5 43094 298 :=
  ⟨by decide, (k_temp_selection_policy 0.5 43094 298).1 "70rpm" (by decide)⟩

/-- C3 counterexample: at the concrete input `T = -1 ≤ 0` the code signals
no `InvalidParameterError` — line 90 performs no validation and simply
returns the Arrhenius value. -/
theorem computeRateConstant_no_reject_at_nonpos_T :
    (-1 : ℝ) ≤ 0 ∧
    computeRateConstant 0.5 43094 (-1) ≠
      Except.error SimError.invalidParameter := by
  refine ⟨by norm_num, ?_⟩
  have h : R * (-1 : ℝ) ≠ 0 := by norm_num [R]
  simp only [computeRateConstant, if_neg h]
  simp

/-- C3 amended: `computeRateConstant` performs no temperature validation and
never signals an `InvalidParameterError`.  For every `T ≠ 0` — negative
just as positive — it returns `Except.ok` of the Arrhenius value, strictly
positive whenever `A > 0`; at `T = 0` exactly, the Python float division
inside the formula raises an uncaught `ZeroDivisionError` before the
exponential is evaluated — an accidental crash, not the claimed
rejection. -/
theorem computeRateConstant_never_rejects (A Ea T : ℝ) (hA : 0 < A) :
    (T ≠ 0 → ∃ v, computeRateConstant A Ea T = Except.ok v ∧ 0 < v) ∧
    (T = 0 → computeRateConstant A Ea T = Except.error SimError.zeroDivision) ∧
    computeRateConstant A Ea T ≠ Except.error SimError.invalidParameter := by
  have hR : (R : ℝ) ≠ 0 := by norm_num [R]
  refine ⟨?_, ?_, ?_⟩
  · intro hT
    have h : R * T ≠ 0 := mul_ne_zero hR hT
    exact ⟨k_sim A Ea T, by simp only [computeRateConstant, if_neg h],
      mul_pos hA (Real.exp_pos _)⟩
  · intro hT
    subst hT
    simp [computeRateConstant]
  · simp only [computeRateConstant]
    split
    · simp
    · simp

/-- Witness for the amended C3 at `A = 0.5`, `Ea = 43094`, exercising both
the no-error branch at `T = -1` and the `ZeroDivisionError` branch at
`T = 0`. -/
theorem computeRateConstant_never_rejects_witness :
    (∃ v, computeRateConstant 0.5 43094 (-1) = Except.ok v ∧ 0 < v) ∧
    computeRateConstant 0.5 43094 0 = Except.error SimError.zeroDivision ∧
    computeRateConstant 0.5 43094 (-1) ≠
      Except.error SimError.invalidParameter := by
  obtain ⟨h1, _, h3⟩ :=
    computeRateConstant_never_rejects 0.5 43094 (-1) (by norm_num)
  obtain ⟨_, h2, _⟩ :=
    computeRateConstant_never_rejects 0.5 43094 0 (by norm_num)
  exact ⟨h1 (by norm_num), h2 rfl, h3⟩

/-- C4 counterexample: at the concrete input `C0 = -0.05 ≤ 0` with the
decreasing grid `[480, 0]` — invalid on both counts according to the claim —
the code signals no `InvalidInputError`; the integrator is called with no
prior validation. -/
theorem simulate_no_reject_on_invalid_input :
    (-0.05 : ℝ) ≤ 0 ∧
    ¬ ([480, 0] : List ℝ).Chain' (· ≤ ·) ∧
    simulate (-0.05) 1 [480, 0] ≠ Except.error SimError.invalidInput := by
  refine ⟨by norm_num, ?_, by simp [simulate]⟩
  intro h
  have h1 := (List.chain'_cons.mp h).1
  norm_num at h1

/-- C4 amended: `simulate` performs no input validation and never signals an
error: for every initial concentration, rate constant and time sequence it
returns `Except.ok` of a concentration list of the same length as the time
sequence. -/
theorem simulate_never_errors (C0 k : ℝ) (ts : List ℝ) :
    ∃ l, simulate C0 k ts = Except.ok l ∧ l.length = ts.length :=
  ⟨conc_sim C0 k ts, rfl, by simp [conc_sim]⟩

/-- C5: for each of the twelve embedded datasets, the simulated series is
built on exactly the experimental time grid, has the same number of points
as the experimental concentration list, and starts at the same initial
concentration `C(t=0) = conc_exp[0]` — for any user parameters and any
global rate constant. -/
theorem simulatedSeries_shares_grid_and_C0 (A Ea ksim : ℝ) :
    data_sets.Forall (fun fam => fam.2.Forall (fun d =>
      (simulatedSeries A Ea ksim d.1 d.2.1 d.2.2).1 =
        d.2.1.map (fun q : ℚ => (q : ℝ)) ∧
      (simulatedSeries A Ea ksim d.1 d.2.1 d.2.2).2.length = d.2.2.length ∧
      (simulatedSeries A Ea ksim d.1 d.2.1 d.2.2).2.head? =
        some ((d.2.2.headI : ℚ) : ℝ))) := by
  simp only [data_sets, List.Forall]
  refine ⟨⟨?_, ?_, ?_⟩, ⟨?_, ?_, ?_⟩, ⟨?_, ?_, ?_⟩, ⟨?_, ?_, ?_⟩⟩
  all_goals exact simulatedSeries_spec _ _ _ _ _ _ (by decide) (by decide)

/-- C6 counterexample: at `A = 1`, `Ea = 0` — a point of the claimed domain
`Ea ≥ 0` — the rate constant is not strictly increasing in `T`: it takes
the same value at `T = 1` and `T = 2`. -/
theorem k_sim_constant_in_T_at_Ea_zero :
    k_sim 1 0 1 = k_sim 1 0 2 ∧ ¬ k_sim 1 0 1 < k_sim 1 0 2 := by
  have h1 : k_sim 1 0 1 = 1 := by simp [k_sim]
  have h2 : k_sim 1 0 2 = 1 := by simp [k_sim]
  rw [h1, h2]
  norm_num

/-- C6 amended: for `A > 0`, `Ea ≥ 0`, `T > 0` the rate constant is strictly
positive and strictly decreasing in `Ea`; it is strictly increasing in `T`
whenever `Ea > 0`, while at `Ea = 0` it is constant in `T`, equal to `A`. -/
theorem k_sim_monotonicity (A Ea Eb T T' : ℝ) (hA : 0 < A) (hEa : 0 ≤ Ea)
    (hT : 0 < T) :
    0 < k_sim A Ea T ∧
    (0 < Ea → T < T' → k_sim A Ea T < k_sim A Ea T') ∧
    (Ea < Eb → k_sim A Eb T < k_sim A Ea T) ∧
    k_sim A 0 T = A := by
  have hR : (0:ℝ) < R := by norm_num [R]
  have hRT : (0:ℝ) < R * T := mul_pos hR hT
  refine ⟨mul_pos hA (Real.exp_pos _), ?_, ?_, ?_⟩
  · intro hEapos hTT'
    have h1 : Ea / (R * T') < Ea / (R * T) :=
      div_lt_div_of_pos_left hEapos hRT (by nlinarith)
    have h2 : -Ea / (R * T) < -Ea / (R * T') := by
      rw [neg_div, neg_div]
      exact neg_lt_neg h1
    exact mul_lt_mul_of_pos_left (Real.exp_lt_exp.mpr h2) hA
  · intro hEE
    have h1 : -Eb / (R * T) < -Ea / (R * T) :=
      (div_lt_div_iff_of_pos_right hRT).mpr (neg_lt_neg hEE)
    exact mul_lt_mul_of_pos_left (Real.exp_lt_exp.mpr h1) hA
  · simp [k_sim]

/-- Witness for the amended C6 at `A = 1`, `Ea = 1 < Eb = 2`,
`T = 1 < T' = 2`. -/
theorem k_sim_monotonicity_witness :
    0 < k_sim 1 1 1 ∧ k_sim 1 1 1 < k_sim 1 1 2 ∧ k_sim 1 2 1 < k_sim 1 1 1 ∧
    k_sim 1 0 1 = 1 := by
  obtain ⟨h1, h2, h3, h4⟩ :=
    k_sim_monotonicity 1 1 2 1 2 (by norm_num) (by norm_num) (by norm_num)
  exact ⟨h1, h2 (by norm_num) (by norm_num), h3 (by norm_num), h4⟩

/-- C7: with `k = 0` the simulator returns the initial concentration
repeated at every time point. -/
theorem simulate_zero_k_constant (C0 : ℝ) (ts : List ℝ) (hC0 : 0 < C0)
    (hchain : ts.Chain' (· ≤ ·)) (hhead : ts.head? = some 0) :
    simulate C0 0 ts = Except.ok (ts.map fun _ => C0) := by
  have h : closedForm C0 0 = fun _ => C0 := by
    funext t
    simp [closedForm]
  simp [simulate, conc_sim, h]

/-- Witness for C7 at `C0 = 0.05`, grid `[0, 480]`. -/
theorem simulate_zero_k_constant_witness :
    (0:ℝ) < 0.05 ∧
    simulate 0.05 0 [0, 480] = Except.ok ([0, 480].map fun _ => (0.05:ℝ)) :=
  ⟨by norm_num,
    simulate_zero_k_constant 0.05 [0, 480] (by norm_num)
      (List.chain'_cons.mpr ⟨by norm_num, List.chain'_singleton 480⟩) rfl⟩

/-- C8: for `C0 > 0`, `k > 0` and a nondecreasing grid starting at 0, the
simulated concentrations never rise: each is at most the preceding one. -/
theorem simulate_nonincreasing (C0 k : ℝ) (ts : List ℝ) (hC0 : 0 < C0)
    (hk : 0 < k) (hchain : ts.Chain' (· ≤ ·)) (hhead : ts.head? = some 0) :
    ∃ l, simulate C0 k ts = Except.ok l ∧ l.Chain' (fun a b => b ≤ a) :=
  ⟨conc_sim C0 k ts, rfl,
    chain'_map_closedForm hC0 hk.le ts (head?_le_of_chain' hchain hhead)
      hchain⟩

/-- Witness for C8 at `C0 = 0.05`, `k = 1`, grid `[0, 480]`. -/
theorem simulate_nonincreasing_witness :
    (0:ℝ) < 0.05 ∧
    ∃ l, simulate 0.05 1 [0, 480] = Except.ok l ∧
      l.Chain' (fun a b => b ≤ a) :=
  ⟨by norm_num,
    simulate_nonincreasing 0.05 1 [0, 480] (by norm_num) (by norm_num)
      (List.chain'_cons.mpr ⟨by norm_num, List.chain'_singleton 480⟩) rfl⟩

/-- C9: the selector deletes every `K` character and parses the remainder as
an integer — the fractional label "293.5K" therefore falls back to the
global rate constant, a bare-digits label "293" is treated as a
temperature, and interleaved `K`s are all deleted. -/
theorem k_temp_parse_shape (A Ea ksim : ℝ) :
    k_temp A Ea ksim "293.5K" = ksim ∧
    k_temp A Ea ksim "293" = k_sim A Ea 293 ∧
    k_temp A Ea ksim "2K9K3K" = k_sim A Ea 293 := by
  refine ⟨rfl, ?_, ?_⟩
  · simp only [k_temp, show pyInt (stripK "293") = some 293 from by decide]
    norm_num
  · simp only [k_temp, show pyInt (stripK "2K9K3K") = some 293 from by decide]
    norm_num

/-- C10: the embedded table holds 4 parameter families of 3 datasets each;
every dataset has exactly 7 points, the identical time grid
`[0, 480, 960, 1440, 1920, 2400, 2880]` seconds and the identical initial
concentration `0.0500`. -/
theorem data_sets_shape :
    data_sets.length = 4 ∧
    data_sets.Forall (fun fam =>
      fam.2.length = 3 ∧
      fam.2.Forall (fun d =>
        d.2.1 = [0, 480, 960, 1440, 1920, 2400, 2880] ∧
        d.2.2.length = 7 ∧
        d.2.2.head? = some 0.05)) := by
  norm_num [data_sets]

end ReactionKinetics
